import Mathlib

/-!
Verification of the ink-tools mouse dispatch core.

This file gives a shallow embedding of the hit-testing / dispatch engine of
`packages/ink-mouse` (createMouseEventHandlers.ts, utils/geometry.ts,
geometry/utils.ts, useElementBoundsCache.ts), of the `xterm-mouse` facade
(`Mouse.checkSupport`), and — where the implementation is not part of the
repository snapshot (TTYController.enable, the click/drag tracker of
MouseEventManager) — definitions modelled from the specification, each marked
as such.  Machine numbers are embedded as `Int`; JavaScript `Map` iteration,
which visits entries in insertion order, is embedded as a `List`; `WeakMap`s
keyed by element identity are embedded as total functions from an opaque
`Nat` reference; `console.error` logging is embedded by returning the list of
diagnostics emitted.
-/

namespace InkTools

/-- `BoundingClientRect` from ink-mouse `types/geometry`: all eight fields as
constructed by `createBoundingClientRect` / `getBoundingClientRect`. -/
structure Rect where
  left : Int
  top : Int
  right : Int
  bottom : Int
  width : Int
  height : Int
  x : Int
  y : Int
deriving DecidableEq

/-- `isPointInRect` from `utils/geometry.ts`:
`x >= rect.left && x <= rect.right && y >= rect.top && y <= rect.bottom`. -/
def isPointInRect (x y : Int) (rect : Rect) : Bool :=
  decide (rect.left ≤ x ∧ x ≤ rect.right ∧ rect.top ≤ y ∧ y ≤ rect.bottom)

/-- The eight handler event types of `HandlerEntry.type` in
`createMouseEventHandlers.ts`. -/
inductive EventType where
  | click
  | mouseEnter
  | mouseLeave
  | mousePress
  | mouseRelease
  | mouseMove
  | mouseDrag
  | wheel
deriving DecidableEq

/-- A registered handler value (`entry.handler : unknown` in the source): either
a callable function, characterised by its declared parameter count
(`Function.length`), or a non-function value, characterised by its `typeof`
string. -/
inductive HandlerVal where
  | fn (length : Nat)
  | nonFn (typeofName : String)
deriving DecidableEq

/-- A diagnostic written with `console.error` by `isValidHandler`; the embedding
returns these instead of performing I/O.  Each carries the offending event type
and, respectively, the `typeof` encountered or the parameter count. -/
inductive Diag where
  | invalidHandlerType (eventType : EventType) (actualType : String)
  | unusualParamCount (eventType : EventType) (paramCount : Nat)
deriving DecidableEq

/-- `isValidHandler` from `createMouseEventHandlers.ts`.  Returns the boolean
result together with the diagnostics logged.  The source's
`handler.length < 0 || handler.length > 10` test is kept verbatim (the first
disjunct is vacuous for a JavaScript function length, embedded as `Nat`).
Diagnostics are only logged when an event type is supplied, as in the source's
`if (eventType)` guards. -/
def isValidHandler (handler : HandlerVal) (eventType : Option EventType) :
    Bool × List Diag :=
  match handler with
  | .nonFn t =>
      (false,
        match eventType with
        | some et => [Diag.invalidHandlerType et t]
        | none => [])
  | .fn l =>
      if l < 0 ∨ l > 10 then
        (false,
          match eventType with
          | some et => [Diag.unusualParamCount et l]
          | none => [])
      else
        (true, [])

/-- `HandlerEntry` from `createMouseEventHandlers.ts`; `key` is the entry's key
in the `handlersRef` map, `ref` the opaque element reference identity. -/
structure HandlerEntry where
  key : String
  type : EventType
  ref : Nat
  handler : HandlerVal
deriving DecidableEq

/-- `CachedElementState` from `useElementBoundsCache.ts` (simple variant):
optional bounds and optional timestamp. -/
structure CachedElementState where
  bounds : Option Rect := none
  boundsTimestamp : Option Int := none
deriving DecidableEq

/-- The body of the closure produced by `createGenericHandler` in
`createMouseEventHandlers.ts`, for the point-based event types: walk the
handler map in insertion order; skip entries of a different type; validate the
handler (collecting diagnostics); skip entries with absent cached bounds; fire
the handler when the point is inside the bounds.  Returns the fired entries in
order together with the diagnostics logged. -/
def createGenericHandler (eventType : EventType)
    (getCachedState : Nat → CachedElementState) (x y : Int) :
    List HandlerEntry → List HandlerEntry × List Diag
  | [] => ([], [])
  | entry :: rest =>
      let tail := createGenericHandler eventType getCachedState x y rest
      if entry.type ≠ eventType then
        tail
      else
        let v := isValidHandler entry.handler (some eventType)
        if ¬ v.1 then
          (tail.1, v.2 ++ tail.2)
        else
          match (getCachedState entry.ref).bounds with
          | none => tail
          | some r =>
              if isPointInRect x y r then (entry :: tail.1, tail.2) else tail

/-- The condition under which `createGenericHandler` invokes an entry's
handler: matching type, valid handler, cached bounds present and containing
the point. -/
def matchesGeneric (eventType : EventType)
    (getCachedState : Nat → CachedElementState) (x y : Int)
    (entry : HandlerEntry) : Bool :=
  decide (entry.type = eventType) &&
    (isValidHandler entry.handler (some eventType)).1 &&
    (match (getCachedState entry.ref).bounds with
     | none => false
     | some r => isPointInRect x y r)

/-- The `['mouseMove', 'mouseEnter', 'mouseLeave'].includes(entry.type)` test
of `handleMove`. -/
def isMoveEventType (t : EventType) : Bool :=
  decide (t = EventType.mouseMove) || decide (t = EventType.mouseEnter) ||
    decide (t = EventType.mouseLeave)

/-- `hoverStateRef.set`: a `WeakMap` keyed by element reference, embedded as a
total function with default `false` (absence means not hovering). -/
def setHover (hover : Nat → Bool) (ref : Nat) (b : Bool) : Nat → Bool :=
  fun r => if r = ref then b else hover r

/-- Processing of a single entry inside `handleMove` of
`createMouseEventHandlers.ts`: the membership test, the validation, the bounds
fetch, and the `switch` on the entry type with its hover-state updates.
Returns the updated hover map, the entries fired (`[]` or `[entry]`), and the
diagnostics logged. -/
def handleMoveEntry (getCachedState : Nat → CachedElementState) (x y : Int)
    (hover : Nat → Bool) (entry : HandlerEntry) :
    (Nat → Bool) × List HandlerEntry × List Diag :=
  if ¬ isMoveEventType entry.type then
    (hover, [], [])
  else
    let v := isValidHandler entry.handler (some entry.type)
    if ¬ v.1 then
      (hover, [], v.2)
    else
      match (getCachedState entry.ref).bounds with
      | none => (hover, [], [])
      | some r =>
          let isInside := isPointInRect x y r
          match entry.type with
          | .mouseMove =>
              (hover, if isInside then [entry] else [], [])
          | .mouseEnter =>
              let wasHoveringEnter := hover entry.ref
              if isInside ≠ wasHoveringEnter then
                (setHover hover entry.ref isInside,
                 if isInside then [entry] else [], [])
              else
                (hover, [], [])
          | .mouseLeave =>
              let wasHoveringLeave := hover entry.ref
              if isInside ≠ wasHoveringLeave then
                (setHover hover entry.ref isInside,
                 if ¬ isInside then [entry] else [], [])
              else
                (hover, [], [])
          | _ => (hover, [], [])

/-- `handleMove` from `createMouseEventHandlers.ts`: a single pass over the
handler map in insertion order, threading the shared hover state through the
entries.  Returns the final hover map, the fired entries in order, and the
diagnostics logged. -/
def handleMove (getCachedState : Nat → CachedElementState) (x y : Int)
    (hover : Nat → Bool) :
    List HandlerEntry → (Nat → Bool) × List HandlerEntry × List Diag
  | [] => (hover, [], [])
  | entry :: rest =>
      let step := handleMoveEntry getCachedState x y hover entry
      let tail := handleMove getCachedState x y step.1 rest
      (tail.1, step.2.1 ++ tail.2.1, step.2.2 ++ tail.2.2)

/-- A sequence of move/drag dispatches: `handleMove` applied to each point in
turn, threading the persistent hover state (the `hoverStateRef` `WeakMap`)
between dispatches.  Returns the final hover map and the concatenation of all
fired entries. -/
def runMoves (getCachedState : Nat → CachedElementState)
    (entries : List HandlerEntry) (hover : Nat → Bool) :
    List (Int × Int) → (Nat → Bool) × List HandlerEntry
  | [] => (hover, [])
  | p :: rest =>
      let step := handleMove getCachedState p.1 p.2 hover entries
      let tail := runMoves getCachedState entries step.1 rest
      (tail.1, step.2.1 ++ tail.2)

/-- A yoga computed layout of one node, as read by `getComputedLayout()` in
`geometry/utils.ts`: the node's relative offsets and its dimensions. -/
structure LayoutBox where
  left : Int
  top : Int
  width : Int
  height : Int
deriving DecidableEq

/-- An ink `DOMElement` whose yoga layout is measurable: its own computed
layout together with the computed layouts of its ancestor chain (nearest
ancestor first).  Nodes whose yoga layout is missing yield `undefined` bounds
and are embedded by passing `none` to `getBoundingClientRect`. -/
structure InkElement where
  layout : LayoutBox
  ancestors : List LayoutBox
deriving DecidableEq

/-- `walkNodePosition` from `geometry/utils.ts`: starting from `(1, 1)`
(terminal coordinates are 1-indexed), accumulate `layout.left` / `layout.top`
over the node and its ancestor chain. -/
def walkNodePosition (node : InkElement) : Int × Int :=
  (node.layout :: node.ancestors).foldl
    (fun acc l => (acc.1 + l.left, acc.2 + l.top)) (1, 1)

/-- `getElementDimensions` from `geometry/utils.ts`: the node's own computed
width and height. -/
def getElementDimensions (node : InkElement) : Int × Int :=
  (node.layout.width, node.layout.height)

/-- `getBoundingClientRect` from `geometry/utils.ts`: `undefined` for a null
(or unmeasurable) node; otherwise combines position and dimensions with
`right = left + width` and `bottom = top + height`. -/
def getBoundingClientRect : Option InkElement → Option Rect
  | none => none
  | some node =>
      let position := walkNodePosition node
      let dimensions := getElementDimensions node
      let left := position.1
      let top := position.2
      let width := dimensions.1
      let height := dimensions.2
      some
        { left := left, top := top, right := left + width,
          bottom := top + height, width := width, height := height,
          x := left, y := top }

/-- `getCachedState` from `useElementBoundsCache.ts` (the variant without
layout versioning), embedded as a pure function of the existing cache entry,
the current `Date.now()`, the validity window `cacheInvalidationMs`, and the
value `getBoundingClientRect` would compute now.  Returns the state stored and
returned, together with a flag telling whether the geometry collaborator was
invoked (a recomputation).  The source's truthiness test
`existing?.bounds && existing.boundsTimestamp && now - existing.boundsTimestamp
< cacheInvalidationMs` requires the bounds to be present and the timestamp to
be present and nonzero (the JavaScript number `0` is falsy). -/
def getCachedState (existing : Option CachedElementState) (now : Int)
    (cacheInvalidationMs : Int) (computed : Option Rect) :
    CachedElementState × Bool :=
  match existing with
  | some s =>
      match s.bounds, s.boundsTimestamp with
      | some _, some ts =>
          if ts ≠ 0 ∧ now - ts < cacheInvalidationMs then
            (s, false)
          else
            ({ bounds := computed, boundsTimestamp := some now }, true)
      | _, _ => ({ bounds := computed, boundsTimestamp := some now }, true)
  | none => ({ bounds := computed, boundsTimestamp := some now }, true)

/-- The mouse button enumeration of the xterm-mouse `MouseEvent`. -/
inductive MouseButton where
  | left
  | middle
  | right
  | nonePressed
  | wheelUp
  | wheelDown
  | wheelLeft
  | wheelRight
deriving DecidableEq

/-- The action enumeration of the xterm-mouse `MouseEvent`. -/
inductive MouseAction where
  | press
  | release
  | click
  | drag
  | move
  | wheel
deriving DecidableEq

/-- The fields of an xterm-mouse `MouseEvent` relevant to the click/drag
tracker. -/
structure TrackerMouseEvent where
  x : Int
  y : Int
  button : MouseButton
  action : MouseAction
deriving DecidableEq

/-- `PendingPress` of the click/drag state tracker: position, button and
timestamp of the last unmatched press. -/
structure PendingPress where
  x : Int
  y : Int
  button : MouseButton
  timestamp : Int
deriving DecidableEq

/-- The mutable state of the click/drag tracker: the pending press and the last
known cursor position. -/
structure TrackerState where
  pendingPress : Option PendingPress := none
  lastPosition : Option (Int × Int) := none
deriving DecidableEq

/-- The default of `MouseOptions.clickDistanceThreshold`
(`packages/xterm-mouse/src/types/options.ts`): 1 cell in each axis. -/
def defaultClickDistanceThreshold : Int := 1

/-- Modelled from the spec: the click/drag state tracker `onDecoded` of the
MouseEventManager, whose implementation is not part of the repository snapshot
(only `MouseOptions.clickDistanceThreshold` and the facade are).  Per spec
section 4.2: on `press`, record the pending press and emit the press; on
`release`, emit the release and, when a pending press with the same button lies
within the click distance threshold in both axes, additionally synthesize a
`click` at the release coordinates with that button, clearing the pending press
regardless of outcome; on `move`/`drag`, update the last position; a release
with no recorded press never synthesizes a click. -/
def onDecoded (clickDistanceThreshold : Int) (now : Int) (st : TrackerState)
    (event : TrackerMouseEvent) : TrackerState × List TrackerMouseEvent :=
  match event.action with
  | .press =>
      let pend : PendingPress :=
        { x := event.x, y := event.y, button := event.button,
          timestamp := now }
      ({ st with pendingPress := some pend }, [event])
  | .release =>
      match st.pendingPress with
      | none => ({ st with pendingPress := none }, [event])
      | some p =>
          if |event.x - p.x| ≤ clickDistanceThreshold ∧
              |event.y - p.y| ≤ clickDistanceThreshold ∧
              p.button = event.button then
            ({ st with pendingPress := none },
             [event,
              { x := event.x, y := event.y, button := event.button,
                action := .click }])
          else
            ({ st with pendingPress := none }, [event])
  | .move =>
      ({ st with lastPosition := some (event.x, event.y) }, [event])
  | .drag =>
      ({ st with lastPosition := some (event.x, event.y) }, [event])
  | _ => (st, [event])

/-- `Mouse.SupportCheckResult` from the xterm-mouse facade. -/
inductive SupportCheckResult where
  | supported
  | notTTY
  | outputNotTTY
deriving DecidableEq

/-- `Mouse.checkSupport` from the xterm-mouse facade: a non-TTY input stream is
classified first, then a non-TTY output stream, otherwise supported. -/
def checkSupport (inputIsTTY outputIsTTY : Bool) : SupportCheckResult :=
  if ¬ inputIsTTY then SupportCheckResult.notTTY
  else if ¬ outputIsTTY then SupportCheckResult.outputNotTTY
  else SupportCheckResult.supported

/-- The enabled/paused state of the stream session controller. -/
structure TTYSessionState where
  enabled : Bool := false
  paused : Bool := false
deriving DecidableEq

/-- Modelled from the spec: `TTYController.enable`, whose implementation is not
part of the repository snapshot (only its tests and the facade are).  Per spec
section 4.5 (corroborated by the TTYController test expecting the message
below): `enable()` raises an error without transitioning when the input
channel is not an interactive terminal; on success it transitions to enabled.
The terminal side effects (raw mode, encoding, control sequences) are outside
this state model. -/
def ttyEnable (inputIsTTY : Bool) (st : TTYSessionState) :
    Except String TTYSessionState :=
  if ¬ inputIsTTY then
    Except.error "Mouse events require a TTY input stream"
  else
    Except.ok { st with enabled := true }

/-- The hover/enter transition counter: the number of `false` to `true`
transitions in a boolean sequence, starting from a given previous value. -/
def countRises : Bool → List Bool → Nat
  | _, [] => 0
  | prev, b :: rest => (if b && !prev then 1 else 0) + countRises b rest

/-- The hover/leave transition counter: the number of `true` to `false`
transitions in a boolean sequence, starting from a given previous value. -/
def countFalls : Bool → List Bool → Nat
  | _, [] => 0
  | prev, b :: rest => (if !b && prev then 1 else 0) + countFalls b rest

/-- The sequence of inside/outside classifications of a move sequence relative
to a rectangle. -/
def insideList (R : Rect) (moves : List (Int × Int)) : List Bool :=
  moves.map (fun p => isPointInRect p.1 p.2 R)

/-- A cache view giving every element the same bounds, as used to study the
hover automaton of a single element. -/
def constBounds (R : Rect) : Nat → CachedElementState :=
  fun _ => { bounds := some R, boundsTimestamp := some 1 }

/-- A representative registered `mouseEnter` entry for element reference 0. -/
def enterEntry : HandlerEntry :=
  { key := "enter", type := EventType.mouseEnter, ref := 0,
    handler := HandlerVal.fn 1 }

/-- A representative registered `mouseLeave` entry for the same element
reference 0, sharing hover state with `enterEntry`. -/
def leaveEntry : HandlerEntry :=
  { key := "leave", type := EventType.mouseLeave, ref := 0,
    handler := HandlerVal.fn 1 }

/-- A concrete rectangle `[1,2] × [1,2]` (left, top, right, bottom, width,
height, x, y) used for concrete evaluations. -/
def rectA : Rect := ⟨1, 1, 2, 2, 1, 1, 1, 1⟩

/-- A distinct concrete rectangle `[7,9] × [7,9]`, used as a recomputed
geometry result distinguishable from `rectA`. -/
def rectB : Rect := ⟨7, 7, 9, 9, 2, 2, 7, 7⟩

/-- The fired entries of a point-based dispatch are exactly the registered
entries matching type, validation and hit test, in registration order. -/
lemma createGenericHandler_fst (eventType : EventType)
    (g : Nat → CachedElementState) (x y : Int) (entries : List HandlerEntry) :
    (createGenericHandler eventType g x y entries).1 =
      entries.filter (matchesGeneric eventType g x y) := by
  induction entries with
  | nil => rfl
  | cons e rest ih =>
      by_cases h1 : e.type = eventType
      · cases hv : (isValidHandler e.handler (some eventType)).1 with
        | false =>
            simp [createGenericHandler, List.filter_cons, matchesGeneric, h1,
              hv, ih]
        | true =>
            cases hb : (g e.ref).bounds with
            | none =>
                simp [createGenericHandler, List.filter_cons, matchesGeneric,
                  h1, hv, hb, ih]
            | some r =>
                cases hp : isPointInRect x y r <;>
                  simp [createGenericHandler, List.filter_cons, matchesGeneric,
                    h1, hv, hb, hp, ih]
      · simp [createGenericHandler, List.filter_cons, matchesGeneric, h1, ih]

/-- Diagnostics only accumulate as the dispatch walks further entries. -/
lemma createGenericHandler_diag_sub (eventType : EventType)
    (g : Nat → CachedElementState) (x y : Int) (e : HandlerEntry)
    (rest : List HandlerEntry) :
    (createGenericHandler eventType g x y rest).2 ⊆
      (createGenericHandler eventType g x y (e :: rest)).2 := by
  by_cases h1 : e.type = eventType
  · cases hv : (isValidHandler e.handler (some eventType)).1 with
    | false =>
        simp only [createGenericHandler, h1]
        intro d hd
        simp [hv, List.mem_append, hd]
    | true =>
        cases hb : (g e.ref).bounds with
        | none => simp [createGenericHandler, h1, hv, hb, List.Subset.refl]
        | some r =>
            cases hp : isPointInRect x y r <;>
              simp [createGenericHandler, h1, hv, hb, hp, List.Subset.refl]
  · simp [createGenericHandler, h1, List.Subset.refl]

/-- A registered entry of the dispatched type whose handler fails validation
contributes its diagnostics to the dispatch log. -/
lemma createGenericHandler_diag_mem (eventType : EventType)
    (g : Nat → CachedElementState) (x y : Int) (entries : List HandlerEntry)
    (e : HandlerEntry) (hmem : e ∈ entries) (htype : e.type = eventType)
    (hinv : (isValidHandler e.handler (some eventType)).1 = false) :
    ∀ d ∈ (isValidHandler e.handler (some eventType)).2,
      d ∈ (createGenericHandler eventType g x y entries).2 := by
  induction entries with
  | nil => cases hmem
  | cons a rest ih =>
      rcases List.mem_cons.mp hmem with he | he
      · subst he
        intro d hd
        simp only [createGenericHandler, htype]
        simp [hinv, List.mem_append, hd]
      · intro d hd
        exact createGenericHandler_diag_sub eventType g x y a rest
          (ih he d hd)

/-- C2: For every point-based dispatch and every pair of registered entries of
the matching event type whose cached bounds both contain the event point, both
handlers are invoked exactly once each, in registration (insertion) order of
the handler map; there is no topmost winner and no event consumption.  The
handler map is embedded as the list `l1 ++ a :: l2 ++ b :: l3` (insertion
order, `a` registered before `b`, keys pairwise distinct as in a `Map`). -/
theorem C2_overlapping_dispatch (eventType : EventType)
    (g : Nat → CachedElementState) (x y : Int)
    (l1 l2 l3 : List HandlerEntry) (a b : HandlerEntry)
    (hkeys : ((l1 ++ a :: l2 ++ b :: l3).map HandlerEntry.key).Nodup)
    (hma : matchesGeneric eventType g x y a = true)
    (hmb : matchesGeneric eventType g x y b = true) :
    (createGenericHandler eventType g x y (l1 ++ a :: l2 ++ b :: l3)).1.count a
        = 1 ∧
    (createGenericHandler eventType g x y (l1 ++ a :: l2 ++ b :: l3)).1.count b
        = 1 ∧
    [a, b].Sublist
      (createGenericHandler eventType g x y (l1 ++ a :: l2 ++ b :: l3)).1 := by
  have hnodup : (l1 ++ a :: l2 ++ b :: l3).Nodup :=
    List.Nodup.of_map HandlerEntry.key hkeys
  rw [createGenericHandler_fst]
  have hamem : a ∈ l1 ++ a :: l2 ++ b :: l3 := by simp
  have hbmem : b ∈ l1 ++ a :: l2 ++ b :: l3 := by simp
  have hfnodup := List.Nodup.filter (matchesGeneric eventType g x y) hnodup
  have hafil : a ∈ (l1 ++ a :: l2 ++ b :: l3).filter
      (matchesGeneric eventType g x y) := List.mem_filter.mpr ⟨hamem, hma⟩
  have hbfil : b ∈ (l1 ++ a :: l2 ++ b :: l3).filter
      (matchesGeneric eventType g x y) := List.mem_filter.mpr ⟨hbmem, hmb⟩
  refine ⟨List.count_eq_one_of_mem hfnodup hafil,
    List.count_eq_one_of_mem hfnodup hbfil, ?_⟩
  have hone : [b].Sublist (b :: l3) :=
    List.Sublist.cons₂ b (List.nil_sublist l3)
  have htwo : [a].Sublist (l1 ++ (a :: l2)) :=
    (List.Sublist.cons₂ a (List.nil_sublist l2)).trans
      (List.sublist_append_right l1 (a :: l2))
  have hsub : [a, b].Sublist (l1 ++ a :: l2 ++ b :: l3) :=
    List.Sublist.append htwo hone
  have hfil := hsub.filter (matchesGeneric eventType g x y)
  rwa [show [a, b].filter (matchesGeneric eventType g x y) = [a, b] by
    simp [List.filter_cons, hma, hmb]] at hfil

/-- C2 witness: a concrete click dispatch over two overlapping elements. -/
theorem C2_witness :
    (createGenericHandler EventType.click
        (fun _ =>
          { bounds := some
              { left := 1, top := 1, right := 4, bottom := 4, width := 3,
                height := 3, x := 1, y := 1 },
            boundsTimestamp := some 1 })
        2 2
        ([] ++
          { key := "A", type := EventType.click, ref := 0,
            handler := HandlerVal.fn 1 } ::
          [] ++
          { key := "B", type := EventType.click, ref := 1,
            handler := HandlerVal.fn 1 } :: [])).1.count
      { key := "A", type := EventType.click, ref := 0,
        handler := HandlerVal.fn 1 } = 1 ∧
    (createGenericHandler EventType.click
        (fun _ =>
          { bounds := some
              { left := 1, top := 1, right := 4, bottom := 4, width := 3,
                height := 3, x := 1, y := 1 },
            boundsTimestamp := some 1 })
        2 2
        ([] ++
          { key := "A", type := EventType.click, ref := 0,
            handler := HandlerVal.fn 1 } ::
          [] ++
          { key := "B", type := EventType.click, ref := 1,
            handler := HandlerVal.fn 1 } :: [])).1.count
      { key := "B", type := EventType.click, ref := 1,
        handler := HandlerVal.fn 1 } = 1 ∧
    [{ key := "A", type := EventType.click, ref := 0,
        handler := HandlerVal.fn 1 },
      { key := "B", type := EventType.click, ref := 1,
        handler := HandlerVal.fn 1 }].Sublist
      (createGenericHandler EventType.click
        (fun _ =>
          { bounds := some
              { left := 1, top := 1, right := 4, bottom := 4, width := 3,
                height := 3, x := 1, y := 1 },
            boundsTimestamp := some 1 })
        2 2
        ([] ++
          { key := "A", type := EventType.click, ref := 0,
            handler := HandlerVal.fn 1 } ::
          [] ++
          { key := "B", type := EventType.click, ref := 1,
            handler := HandlerVal.fn 1 } :: [])).1 :=
  C2_overlapping_dispatch EventType.click
    (fun _ =>
      { bounds := some
          { left := 1, top := 1, right := 4, bottom := 4, width := 3,
            height := 3, x := 1, y := 1 },
        boundsTimestamp := some 1 })
    2 2 [] [] []
    { key := "A", type := EventType.click, ref := 0,
      handler := HandlerVal.fn 1 }
    { key := "B", type := EventType.click, ref := 1,
      handler := HandlerVal.fn 1 }
    (by decide) (by decide) (by decide)

/-- C7: For every dispatch of a point-based event and every matching entry
whose cached bounds are absent, the entry is skipped silently: its handler is
not invoked (the entry is not among the fired entries).  No error is raised:
the dispatch is a total function producing the remaining entries' effects. -/
theorem C7_absent_bounds_skipped (eventType : EventType)
    (g : Nat → CachedElementState) (x y : Int) (entries : List HandlerEntry)
    (e : HandlerEntry) (hmem : e ∈ entries)
    (hb : (g e.ref).bounds = none) :
    e ∉ (createGenericHandler eventType g x y entries).1 := by
  rw [createGenericHandler_fst]
  intro hin
  have hmatch := (List.mem_filter.mp hin).2
  simp [matchesGeneric, hb] at hmatch

/-- C7 witness: a concrete click entry with absent bounds is not fired. -/
theorem C7_witness :
    { key := "A", type := EventType.click, ref := 0,
        handler := HandlerVal.fn 1 } ∉
      (createGenericHandler EventType.click (fun _ => { }) 2 2
        [{ key := "A", type := EventType.click, ref := 0,
           handler := HandlerVal.fn 1 }]).1 :=
  C7_absent_bounds_skipped EventType.click (fun _ => { }) 2 2
    [{ key := "A", type := EventType.click, ref := 0,
       handler := HandlerVal.fn 1 }]
    { key := "A", type := EventType.click, ref := 0,
      handler := HandlerVal.fn 1 }
    (by decide) rfl

/-- C3 counterexample: a registered click handler that is a callable function
with 11 declared parameters, whose event type matches and whose cached bounds
contain the event point, is nevertheless not invoked — refuting that in
production mode callability alone is checked. -/
theorem C3_counterexample :
    isPointInRect 2 2
        { left := 1, top := 1, right := 4, bottom := 4, width := 3,
          height := 3, x := 1, y := 1 } = true ∧
    (createGenericHandler EventType.click
        (fun _ =>
          { bounds := some
              { left := 1, top := 1, right := 4, bottom := 4, width := 3,
                height := 3, x := 1, y := 1 },
            boundsTimestamp := some 1 })
        2 2
        [{ key := "A", type := EventType.click, ref := 0,
           handler := HandlerVal.fn 11 }]).1 = [] := by
  constructor
  · decide
  · decide

/-- C3 (amended): before invoking, the dispatch confirms the stored handler is
callable with a declared parameter count of at most 10; a non-callable handler
is logged with a diagnostic identifying the offending event type and the
actual type encountered, and is skipped without being invoked (the dispatch is
total, so nothing is thrown); every entry whose handler is a callable function
of at most 10 parameters, whose event type matches, and whose cached bounds
contain the point, is invoked. -/
theorem C3_handler_validation (eventType : EventType)
    (g : Nat → CachedElementState) (x y : Int)
    (entries : List HandlerEntry) (e : HandlerEntry) :
    (∀ t : String, e ∈ entries → e.handler = HandlerVal.nonFn t →
      e.type = eventType →
        e ∉ (createGenericHandler eventType g x y entries).1 ∧
        Diag.invalidHandlerType eventType t ∈
          (createGenericHandler eventType g x y entries).2) ∧
    (∀ (n : Nat) (r : Rect), e ∈ entries → e.handler = HandlerVal.fn n →
      n ≤ 10 → e.type = eventType → (g e.ref).bounds = some r →
      isPointInRect x y r = true →
        e ∈ (createGenericHandler eventType g x y entries).1) := by
  constructor
  · intro t hmem hnonfn htype
    have hinv : (isValidHandler e.handler (some eventType)).1 = false := by
      rw [hnonfn]; rfl
    constructor
    · rw [createGenericHandler_fst]
      intro hin
      have hmatch := (List.mem_filter.mp hin).2
      simp [matchesGeneric, hinv] at hmatch
    · have hd : Diag.invalidHandlerType eventType t ∈
          (isValidHandler e.handler (some eventType)).2 := by
        rw [hnonfn]; simp [isValidHandler]
      exact createGenericHandler_diag_mem eventType g x y entries e hmem
        htype hinv _ hd
  · intro n r hmem hfn hlen htype hb hin
    rw [createGenericHandler_fst]
    refine List.mem_filter.mpr ⟨hmem, ?_⟩
    have hval : (isValidHandler e.handler (some eventType)).1 = true := by
      rw [hfn]
      have hno : ¬ (n < 0 ∨ n > 10) := by omega
      have h10 : ¬ 10 < n := by omega
      simp [isValidHandler, hno, h10]
    simp [matchesGeneric, htype, hval, hb, hin]

/-- C3 witness: a concrete non-callable handler is skipped and logged, and a
concrete valid handler inside bounds is invoked. -/
theorem C3_witness :
    ({ key := "A", type := EventType.click, ref := 0,
        handler := HandlerVal.nonFn "string" } ∉
      (createGenericHandler EventType.click
        (fun _ =>
          { bounds := some
              { left := 1, top := 1, right := 4, bottom := 4, width := 3,
                height := 3, x := 1, y := 1 },
            boundsTimestamp := some 1 })
        2 2
        [{ key := "A", type := EventType.click, ref := 0,
           handler := HandlerVal.nonFn "string" }]).1 ∧
    Diag.invalidHandlerType EventType.click "string" ∈
      (createGenericHandler EventType.click
        (fun _ =>
          { bounds := some
              { left := 1, top := 1, right := 4, bottom := 4, width := 3,
                height := 3, x := 1, y := 1 },
            boundsTimestamp := some 1 })
        2 2
        [{ key := "A", type := EventType.click, ref := 0,
           handler := HandlerVal.nonFn "string" }]).2) ∧
    { key := "B", type := EventType.click, ref := 0,
        handler := HandlerVal.fn 1 } ∈
      (createGenericHandler EventType.click
        (fun _ =>
          { bounds := some
              { left := 1, top := 1, right := 4, bottom := 4, width := 3,
                height := 3, x := 1, y := 1 },
            boundsTimestamp := some 1 })
        2 2
        [{ key := "B", type := EventType.click, ref := 0,
           handler := HandlerVal.fn 1 }]).1 :=
  ⟨(C3_handler_validation EventType.click
      (fun _ =>
        { bounds := some
            { left := 1, top := 1, right := 4, bottom := 4, width := 3,
              height := 3, x := 1, y := 1 },
          boundsTimestamp := some 1 })
      2 2
      [{ key := "A", type := EventType.click, ref := 0,
         handler := HandlerVal.nonFn "string" }]
      { key := "A", type := EventType.click, ref := 0,
        handler := HandlerVal.nonFn "string" }).1
      "string" (by decide) rfl rfl,
   (C3_handler_validation EventType.click
      (fun _ =>
        { bounds := some
            { left := 1, top := 1, right := 4, bottom := 4, width := 3,
              height := 3, x := 1, y := 1 },
          boundsTimestamp := some 1 })
      2 2
      [{ key := "B", type := EventType.click, ref := 0,
         handler := HandlerVal.fn 1 }]
      { key := "B", type := EventType.click, ref := 0,
        handler := HandlerVal.fn 1 }).2
      1
      { left := 1, top := 1, right := 4, bottom := 4, width := 3,
        height := 3, x := 1, y := 1 }
      (by decide) rfl (by decide) rfl rfl (by decide)⟩

/-- An entry fired by the per-entry move processing is the processed entry
itself, and its handler passed validation. -/
lemma handleMoveEntry_fired_valid (g : Nat → CachedElementState) (x y : Int)
    (hover : Nat → Bool) (e e2 : HandlerEntry)
    (h : e2 ∈ (handleMoveEntry g x y hover e).2.1) :
    e2 = e ∧ (isValidHandler e.handler (some e.type)).1 = true := by
  obtain ⟨k, ty, rf, hd⟩ := e
  by_cases hm : isMoveEventType ty = true
  · by_cases hv : (isValidHandler hd (some ty)).1 = true
    · refine ⟨?_, hv⟩
      cases hb : (g rf).bounds with
      | none => simp [handleMoveEntry, hm, hv, hb] at h
      | some r =>
          simp only [handleMoveEntry, hm, hv, if_true, not_true,
            if_neg, hb] at h
          cases ty <;> simp_all [isMoveEventType] <;>
            (repeat' split at h) <;> simp_all
    · simp [handleMoveEntry, hm, hv] at h
  · simp [handleMoveEntry, hm] at h

/-- Every entry fired during a move/drag dispatch passed handler validation. -/
lemma handleMove_fired_valid (g : Nat → CachedElementState) (x y : Int)
    (entries : List HandlerEntry) :
    ∀ (hover : Nat → Bool) (e2 : HandlerEntry),
      e2 ∈ (handleMove g x y hover entries).2.1 →
        (isValidHandler e2.handler (some e2.type)).1 = true := by
  induction entries with
  | nil => intro hover e2 h; simp [handleMove] at h
  | cons a rest ih =>
      intro hover e2 h
      simp only [handleMove, List.mem_append] at h
      rcases h with h | h
      · obtain ⟨he, hv⟩ := handleMoveEntry_fired_valid g x y hover a e2 h
        rw [he]; exact hv
      · exact ih _ _ h

/-- C10: A registered handler that is a callable function declared with more
than 10 parameters is never invoked by any dispatch (point-based or
move-class); it is logged as having an unusual parameter count; a function
with 10 or fewer declared parameters passes validation. -/
theorem C10_param_count_validation (eventType : EventType)
    (g : Nat → CachedElementState) (x y : Int) (hover : Nat → Bool)
    (entries : List HandlerEntry) (e : HandlerEntry) (n : Nat) :
    (e.handler = HandlerVal.fn n → n > 10 →
      e ∉ (createGenericHandler eventType g x y entries).1) ∧
    (e.handler = HandlerVal.fn n → n > 10 →
      e ∉ (handleMove g x y hover entries).2.1) ∧
    (e ∈ entries → e.handler = HandlerVal.fn n → n > 10 →
      e.type = eventType →
      Diag.unusualParamCount eventType n ∈
        (createGenericHandler eventType g x y entries).2) ∧
    (∀ m : Nat, m ≤ 10 →
      (isValidHandler (HandlerVal.fn m) (some eventType)).1 = true) := by
  have hinv : e.handler = HandlerVal.fn n → n > 10 →
      (isValidHandler e.handler (some eventType)).1 = false := by
    intro hfn hgt
    rw [hfn]
    simp [isValidHandler, hgt]
  refine ⟨?_, ?_, ?_, ?_⟩
  · intro hfn hgt hin
    rw [createGenericHandler_fst] at hin
    have hmatch := (List.mem_filter.mp hin).2
    simp [matchesGeneric, hinv hfn hgt] at hmatch
  · intro hfn hgt hin
    have hval := handleMove_fired_valid g x y entries hover e hin
    rw [hfn] at hval
    simp [isValidHandler, hgt] at hval
  · intro hmem hfn hgt htype
    have hd : Diag.unusualParamCount eventType n ∈
        (isValidHandler e.handler (some eventType)).2 := by
      rw [hfn]
      simp [isValidHandler, hgt]
    exact createGenericHandler_diag_mem eventType g x y entries e hmem
      htype (hinv hfn hgt) _ hd
  · intro m hm
    have hno : ¬ (m < 0 ∨ m > 10) := by omega
    have h10 : ¬ 10 < m := by omega
    simp [isValidHandler, hno, h10]

/-- C10 witness: an 11-parameter handler is rejected on click and move
dispatch and logged; a 1-parameter handler passes validation. -/
theorem C10_witness :
    ({ key := "A", type := EventType.click, ref := 0,
        handler := HandlerVal.fn 11 } ∉
      (createGenericHandler EventType.click
        (fun _ =>
          { bounds := some
              { left := 1, top := 1, right := 4, bottom := 4, width := 3,
                height := 3, x := 1, y := 1 },
            boundsTimestamp := some 1 })
        2 2
        [{ key := "A", type := EventType.click, ref := 0,
           handler := HandlerVal.fn 11 }]).1) ∧
    Diag.unusualParamCount EventType.click 11 ∈
      (createGenericHandler EventType.click
        (fun _ =>
          { bounds := some
              { left := 1, top := 1, right := 4, bottom := 4, width := 3,
                height := 3, x := 1, y := 1 },
            boundsTimestamp := some 1 })
        2 2
        [{ key := "A", type := EventType.click, ref := 0,
           handler := HandlerVal.fn 11 }]).2 ∧
    (isValidHandler (HandlerVal.fn 1) (some EventType.click)).1 = true :=
  ⟨(C10_param_count_validation EventType.click
      (fun _ =>
        { bounds := some
            { left := 1, top := 1, right := 4, bottom := 4, width := 3,
              height := 3, x := 1, y := 1 },
          boundsTimestamp := some 1 })
      2 2 (fun _ => false)
      [{ key := "A", type := EventType.click, ref := 0,
         handler := HandlerVal.fn 11 }]
      { key := "A", type := EventType.click, ref := 0,
        handler := HandlerVal.fn 11 }
      11).1 rfl (by decide),
   (C10_param_count_validation EventType.click
      (fun _ =>
        { bounds := some
            { left := 1, top := 1, right := 4, bottom := 4, width := 3,
              height := 3, x := 1, y := 1 },
          boundsTimestamp := some 1 })
      2 2 (fun _ => false)
      [{ key := "A", type := EventType.click, ref := 0,
         handler := HandlerVal.fn 11 }]
      { key := "A", type := EventType.click, ref := 0,
        handler := HandlerVal.fn 11 }
      11).2.2.1 (by decide) rfl (by decide) rfl,
   (C10_param_count_validation EventType.click
      (fun _ =>
        { bounds := some
            { left := 1, top := 1, right := 4, bottom := 4, width := 3,
              height := 3, x := 1, y := 1 },
          boundsTimestamp := some 1 })
      2 2 (fun _ => false)
      [{ key := "A", type := EventType.click, ref := 0,
         handler := HandlerVal.fn 11 }]
      { key := "A", type := EventType.click, ref := 0,
        handler := HandlerVal.fn 11 }
      11).2.2.2 1 (by decide)⟩

/-- C4: Hit-testing is inclusive of all four rectangle edges: a point is
classified inside exactly when `left ≤ x ≤ right` and `top ≤ y ≤ bottom`; in
particular a point exactly on the left, right, top, or bottom edge (with its
other coordinate in range) is inside. -/
theorem C4_hit_testing_inclusive :
    (∀ (x y : Int) (r : Rect),
      isPointInRect x y r = true ↔
        (r.left ≤ x ∧ x ≤ r.right ∧ r.top ≤ y ∧ y ≤ r.bottom)) ∧
    (∀ (y : Int) (r : Rect), r.left ≤ r.right → r.top ≤ y → y ≤ r.bottom →
      isPointInRect r.left y r = true ∧ isPointInRect r.right y r = true) ∧
    (∀ (x : Int) (r : Rect), r.top ≤ r.bottom → r.left ≤ x → x ≤ r.right →
      isPointInRect x r.top r = true ∧ isPointInRect x r.bottom r = true) := by
  refine ⟨?_, ?_, ?_⟩
  · intro x y r
    simp [isPointInRect]
  · intro y r h1 h2 h3
    constructor <;> simp [isPointInRect] <;> omega
  · intro x r h1 h2 h3
    constructor <;> simp [isPointInRect] <;> omega

/-- C4 witness: edge points of a concrete rectangle are inside. -/
theorem C4_witness :
    isPointInRect 2 3
        { left := 2, top := 1, right := 6, bottom := 5, width := 4,
          height := 4, x := 2, y := 1 } = true ∧
    isPointInRect 6 3
        { left := 2, top := 1, right := 6, bottom := 5, width := 4,
          height := 4, x := 2, y := 1 } = true :=
  C4_hit_testing_inclusive.2.1 3
    { left := 2, top := 1, right := 6, bottom := 5, width := 4,
      height := 4, x := 2, y := 1 }
    (by decide) (by decide) (by decide)

/-- C9: For every measurable element with computed position `(left, top)` and
layout dimensions `(width, height)`, the computed rectangle has
`right = left + width` and `bottom = top + height`; under the inclusive
point-in-rectangle test the point `(left + width, top + height)` — one cell
beyond the element's last occupied cell — is inside; and the element responds
to `width + 1` distinct columns and `height + 1` distinct rows. -/
theorem C9_plus_one_cell (node : InkElement) (r : Rect)
    (h : getBoundingClientRect (some node) = some r)
    (hw : 0 ≤ node.layout.width) (hh : 0 ≤ node.layout.height) :
    r.right = r.left + node.layout.width ∧
    r.bottom = r.top + node.layout.height ∧
    isPointInRect (r.left + node.layout.width) (r.top + node.layout.height) r
      = true ∧
    (∀ x : Int, isPointInRect x r.top r = true ↔ x ∈ Finset.Icc r.left r.right)
      ∧
    (Finset.Icc r.left r.right).card = node.layout.width.toNat + 1 ∧
    (Finset.Icc r.top r.bottom).card = node.layout.height.toNat + 1 := by
  simp only [getBoundingClientRect, getElementDimensions,
    Option.some.injEq] at h
  subst h
  refine ⟨rfl, rfl, ?_, ?_, ?_, ?_⟩
  · simp [isPointInRect]
    omega
  · intro x
    simp [isPointInRect, Finset.mem_Icc]
    omega
  · rw [Int.card_Icc]
    simp only []
    omega
  · rw [Int.card_Icc]
    simp only []
    omega

/-- C9 witness: a concrete element of width 4 and height 5 at position (4, 5)
accepts the corner cell (8, 10) and spans 5 columns and 6 rows. -/
theorem C9_witness :
    isPointInRect (4 + 4) (5 + 5)
        { left := 4, top := 5, right := 4 + 4, bottom := 5 + 5, width := 4,
          height := 5, x := 4, y := 5 } = true ∧
    (Finset.Icc (4 : Int) (4 + 4)).card = 4 + 1 :=
  ⟨(C9_plus_one_cell
      { layout := { left := 2, top := 3, width := 4, height := 5 },
        ancestors := [{ left := 1, top := 1, width := 7, height := 7 }] }
      { left := 4, top := 5, right := 4 + 4, bottom := 5 + 5, width := 4,
        height := 5, x := 4, y := 5 }
      rfl (by decide) (by decide)).2.2.1,
   (C9_plus_one_cell
      { layout := { left := 2, top := 3, width := 4, height := 5 },
        ancestors := [{ left := 1, top := 1, width := 7, height := 7 }] }
      { left := 4, top := 5, right := 4 + 4, bottom := 5 + 5, width := 4,
        height := 5, x := 4, y := 5 }
      rfl (by decide) (by decide)).2.2.2.2.1⟩

/-- C6 counterexample.  First input: a cached entry with timestamp 0 and
current time 50 inside a 100ms validity window is recomputed (and the newly
computed bounds, not the cached ones, are returned), because the source's
truthiness test treats the numeric timestamp 0 as absent — refuting "the
cached bounds are returned without recomputation".  Second input: with
`validityWindowMs = 0`, a cached entry with timestamp 100 at current time 50
(clock stepped backwards) is served from cache, because `50 - 100 < 0` —
refuting "when validityWindowMs is 0 or negative, every lookup recomputes". -/
theorem C6_counterexample :
    getCachedState (some ⟨some rectA, some 0⟩) 50 100 (some rectB) =
      (⟨some rectB, some 50⟩, true) ∧
    getCachedState (some ⟨some rectA, some 100⟩) 50 0 (some rectB) =
      (⟨some rectA, some 100⟩, false) := by
  constructor
  · decide
  · decide

/-- C6 (amended): on lookup, if a cached entry exists whose bounds are present
and whose timestamp `t` is nonzero with `now − t < validityWindowMs`, the
cached state is returned without recomputation; otherwise (no entry, absent
bounds, absent or zero timestamp, or expiry) bounds are recomputed via the
external geometry function, stored with the new timestamp, and returned; and
when `validityWindowMs ≤ 0` and the clock has not stepped backwards past the
stored timestamp, every lookup recomputes. -/
theorem C6_bounds_cache_lookup (now w : Int) (computed : Option Rect) :
    (∀ (s : CachedElementState) (b : Rect) (t : Int),
      s.bounds = some b → s.boundsTimestamp = some t → t ≠ 0 → now - t < w →
        getCachedState (some s) now w computed = (s, false)) ∧
    (getCachedState none now w computed =
      ({ bounds := computed, boundsTimestamp := some now }, true)) ∧
    (∀ (s : CachedElementState) (b : Rect) (t : Int),
      s.bounds = some b → s.boundsTimestamp = some t → w ≤ now - t →
        getCachedState (some s) now w computed =
          ({ bounds := computed, boundsTimestamp := some now }, true)) ∧
    (∀ s : CachedElementState, w ≤ 0 →
      (∀ t : Int, s.boundsTimestamp = some t → t ≤ now) →
        (getCachedState (some s) now w computed).2 = true) := by
  refine ⟨?_, rfl, ?_, ?_⟩
  · intro s b t hb ht htz hfresh
    simp [getCachedState, hb, ht, htz, hfresh]
  · intro s b t hb ht hexp
    have hng : ¬ (t ≠ 0 ∧ now - t < w) := by
      intro hc
      omega
    simp [getCachedState, hb, ht, hng]
  · intro s hw hts
    match hb : s.bounds, ht : s.boundsTimestamp with
    | some b, some t =>
        have htle : t ≤ now := hts t ht
        have hng : ¬ (t ≠ 0 ∧ now - t < w) := by
          intro hc
          omega
        simp [getCachedState, hb, ht, hng]
    | some b, none => simp [getCachedState, hb, ht]
    | none, some t => simp [getCachedState, hb, ht]
    | none, none => simp [getCachedState, hb, ht]

/-- C6 witness: a fresh nonzero-timestamp entry is served from cache; an
expired entry is recomputed; a zero validity window with a monotone clock
recomputes. -/
theorem C6_witness :
    getCachedState (some ⟨some rectA, some 10⟩) 50 100 (some rectB) =
      (⟨some rectA, some 10⟩, false) ∧
    getCachedState (some ⟨some rectA, some 10⟩) 300 100 (some rectB) =
      (⟨some rectB, some 300⟩, true) ∧
    (getCachedState (some ⟨some rectA, some 10⟩) 50 0 (some rectB)).2
      = true :=
  ⟨(C6_bounds_cache_lookup 50 100 (some rectB)).1
      ⟨some rectA, some 10⟩ rectA 10 rfl rfl (by decide) (by decide),
   (C6_bounds_cache_lookup 300 100 (some rectB)).2.2.1
      ⟨some rectA, some 10⟩ rectA 10 rfl rfl (by decide),
   (C6_bounds_cache_lookup 50 0 (some rectB)).2.2.2
      ⟨some rectA, some 10⟩ (by decide)
      (fun t ht => by
        simp only [Option.some.injEq] at ht
        omega)⟩

/-- C8: `enable()` called when the input stream is not an interactive terminal
raises an error synchronously and does not transition the session (no enabled
state is produced); correspondingly, `Mouse.checkSupport` classifies a non-TTY
input stream as `not_tty`, which is not `supported`. -/
theorem C8_enable_requires_tty (st : TTYSessionState) (outputIsTTY : Bool) :
    ttyEnable false st =
      Except.error "Mouse events require a TTY input stream" ∧
    (∀ st2 : TTYSessionState, ttyEnable false st ≠ Except.ok st2) ∧
    checkSupport false outputIsTTY = SupportCheckResult.notTTY ∧
    SupportCheckResult.notTTY ≠ SupportCheckResult.supported := by
  refine ⟨rfl, ?_, rfl, by decide⟩
  intro st2 hok
  simp [ttyEnable] at hok

/-- C8 witness: enabling from the initial disabled state on a non-TTY input
errors and produces no enabled state, and the support check reports not-TTY. -/
theorem C8_witness :
    ttyEnable false { enabled := false, paused := false } =
      Except.error "Mouse events require a TTY input stream" ∧
    (ttyEnable false { enabled := false, paused := false } ≠
      Except.ok { enabled := true, paused := false }) ∧
    checkSupport false true = SupportCheckResult.notTTY :=
  ⟨(C8_enable_requires_tty { enabled := false, paused := false } true).1,
   (C8_enable_requires_tty { enabled := false, paused := false } true).2.1
     { enabled := true, paused := false },
   (C8_enable_requires_tty { enabled := false, paused := false } true).2.2.1⟩

/-- C5: With a recorded press at `(px, py)` with button `B`, a subsequent
release at `(rx, ry)` with the same button emits the release followed
immediately by a synthesized click at the release coordinates with button `B`
when both axis distances are within the threshold, and only the release
otherwise; the pending press is cleared in both cases; a release with no prior
press never synthesizes a click; the threshold defaults to 1; threshold 0
requires an exact position match. -/
theorem C5_click_synthesis (thr now ts : Int) (st : TrackerState)
    (px py rx ry : Int) (B : MouseButton) :
    (|rx - px| ≤ thr → |ry - py| ≤ thr →
      onDecoded thr now
          { st with pendingPress := some ⟨px, py, B, ts⟩ }
          ⟨rx, ry, B, MouseAction.release⟩ =
        ({ st with pendingPress := none },
         [⟨rx, ry, B, MouseAction.release⟩,
          ⟨rx, ry, B, MouseAction.click⟩])) ∧
    (¬ (|rx - px| ≤ thr ∧ |ry - py| ≤ thr) →
      onDecoded thr now
          { st with pendingPress := some ⟨px, py, B, ts⟩ }
          ⟨rx, ry, B, MouseAction.release⟩ =
        ({ st with pendingPress := none },
         [⟨rx, ry, B, MouseAction.release⟩])) ∧
    (st.pendingPress = none →
      onDecoded thr now st ⟨rx, ry, B, MouseAction.release⟩ =
        ({ st with pendingPress := none },
         [⟨rx, ry, B, MouseAction.release⟩])) ∧
    defaultClickDistanceThreshold = 1 ∧
    ((onDecoded 0 now
          { st with pendingPress := some ⟨px, py, B, ts⟩ }
          ⟨rx, ry, B, MouseAction.release⟩).2 =
        [⟨rx, ry, B, MouseAction.release⟩,
         ⟨rx, ry, B, MouseAction.click⟩] ↔
      (rx = px ∧ ry = py)) := by
  refine ⟨?_, ?_, ?_, rfl, ?_⟩
  · intro h1 h2
    simp [onDecoded, h1, h2]
  · intro hfar
    by_cases h1 : |rx - px| ≤ thr
    · by_cases h2 : |ry - py| ≤ thr
      · exact absurd ⟨h1, h2⟩ hfar
      · simp [onDecoded, h1, h2]
    · simp [onDecoded, h1]
  · intro hnone
    simp [onDecoded, hnone]
  · by_cases h1 : |rx - px| ≤ (0 : Int)
    · by_cases h2 : |ry - py| ≤ (0 : Int)
      · have hx : rx = px := by
          have := abs_le.mp h1
          omega
        have hy : ry = py := by
          have := abs_le.mp h2
          omega
        simp [onDecoded, h1, h2, hx, hy]
      · have hy : ¬ ry = py := by
          intro hk
          apply h2
          rw [hk]
          simp
        simp [onDecoded, h1, h2, hy]
    · have hx : ¬ rx = px := by
        intro hk
        apply h1
        rw [hk]
        simp
      simp [onDecoded, h1, hx]

/-- C5 witness: press at (10,10) left, release at (10,11) left with threshold
1 yields release then click at (10,11); release at (20,20) yields release
only. -/
theorem C5_witness :
    onDecoded 1 5
        { pendingPress := some ⟨10, 10, MouseButton.left, 0⟩,
          lastPosition := none }
        ⟨10, 11, MouseButton.left, MouseAction.release⟩ =
      ({ pendingPress := none, lastPosition := none },
       [⟨10, 11, MouseButton.left, MouseAction.release⟩,
        ⟨10, 11, MouseButton.left, MouseAction.click⟩]) ∧
    onDecoded 1 5
        { pendingPress := some ⟨10, 10, MouseButton.left, 0⟩,
          lastPosition := none }
        ⟨20, 20, MouseButton.left, MouseAction.release⟩ =
      ({ pendingPress := none, lastPosition := none },
       [⟨20, 20, MouseButton.left, MouseAction.release⟩]) :=
  ⟨(C5_click_synthesis 1 5 0
      { pendingPress := some ⟨10, 10, MouseButton.left, 0⟩,
        lastPosition := none }
      10 10 10 11 MouseButton.left).1 (by decide) (by decide),
   (C5_click_synthesis 1 5 0
      { pendingPress := some ⟨10, 10, MouseButton.left, 0⟩,
        lastPosition := none }
      10 10 20 20 MouseButton.left).2.1 (by decide)⟩

/-- A single move dispatch over a lone `mouseEnter` entry: the hover state
afterwards equals the insideness of the point, and the entry fires exactly on
an outside-to-inside change. -/
lemma handleMove_enter_step (R : Rect) (x y : Int) (hover : Nat → Bool) :
    (handleMove (constBounds R) x y hover [enterEntry]).1 0 =
      isPointInRect x y R ∧
    (handleMove (constBounds R) x y hover [enterEntry]).2.1 =
      (if isPointInRect x y R && !hover 0 then [enterEntry] else []) := by
  cases hin : isPointInRect x y R <;> cases hh : hover 0 <;>
    simp [handleMove, handleMoveEntry, enterEntry, constBounds,
      isMoveEventType, isValidHandler, setHover, hin, hh]

/-- A single move dispatch over a lone `mouseLeave` entry: the hover state
afterwards equals the insideness of the point, and the entry fires exactly on
an inside-to-outside change. -/
lemma handleMove_leave_step (R : Rect) (x y : Int) (hover : Nat → Bool) :
    (handleMove (constBounds R) x y hover [leaveEntry]).1 0 =
      isPointInRect x y R ∧
    (handleMove (constBounds R) x y hover [leaveEntry]).2.1 =
      (if !isPointInRect x y R && hover 0 then [leaveEntry] else []) := by
  cases hin : isPointInRect x y R <;> cases hh : hover 0 <;>
    simp [handleMove, handleMoveEntry, leaveEntry, constBounds,
      isMoveEventType, isValidHandler, setHover, hin, hh]

/-- A single move dispatch with a `mouseEnter` entry registered before a
`mouseLeave` entry for the same element: the earlier enter entry consumes the
shared hover-state change, so the leave entry never fires. -/
lemma handleMove_pairEL_step (R : Rect) (x y : Int) (hover : Nat → Bool) :
    (handleMove (constBounds R) x y hover [enterEntry, leaveEntry]).1 0 =
      isPointInRect x y R ∧
    (handleMove (constBounds R) x y hover [enterEntry, leaveEntry]).2.1 =
      (if isPointInRect x y R && !hover 0 then [enterEntry] else []) := by
  cases hin : isPointInRect x y R <;> cases hh : hover 0 <;>
    simp [handleMove, handleMoveEntry, enterEntry, leaveEntry, constBounds,
      isMoveEventType, isValidHandler, setHover, hin, hh]

/-- A single move dispatch with a `mouseLeave` entry registered before a
`mouseEnter` entry for the same element: the earlier leave entry consumes the
shared hover-state change, so the enter entry never fires. -/
lemma handleMove_pairLE_step (R : Rect) (x y : Int) (hover : Nat → Bool) :
    (handleMove (constBounds R) x y hover [leaveEntry, enterEntry]).1 0 =
      isPointInRect x y R ∧
    (handleMove (constBounds R) x y hover [leaveEntry, enterEntry]).2.1 =
      (if !isPointInRect x y R && hover 0 then [leaveEntry] else []) := by
  cases hin : isPointInRect x y R <;> cases hh : hover 0 <;>
    simp [handleMove, handleMoveEntry, enterEntry, leaveEntry, constBounds,
      isMoveEventType, isValidHandler, setHover, hin, hh]

/-- Over any move sequence, a lone `mouseEnter` entry fires exactly once per
outside-to-inside transition. -/
lemma runMoves_enter_only (R : Rect) (moves : List (Int × Int)) :
    ∀ hover : Nat → Bool,
      ((runMoves (constBounds R) [enterEntry] hover moves).2).length =
        countRises (hover 0) (insideList R moves) := by
  induction moves with
  | nil => intro hover; simp [runMoves, countRises, insideList]
  | cons p rest ih =>
      intro hover
      have hstep := handleMove_enter_step R p.1 p.2 hover
      simp only [runMoves, insideList, List.map_cons, countRises,
        List.length_append]
      rw [hstep.2, ih _, hstep.1]
      simp only [insideList]
      rcases Bool.eq_false_or_eq_true (isPointInRect p.1 p.2 R) with hin | hin <;>
        rcases Bool.eq_false_or_eq_true (hover 0) with hh | hh <;>
          simp [hin, hh]

/-- Over any move sequence, a lone `mouseLeave` entry fires exactly once per
inside-to-outside transition. -/
lemma runMoves_leave_only (R : Rect) (moves : List (Int × Int)) :
    ∀ hover : Nat → Bool,
      ((runMoves (constBounds R) [leaveEntry] hover moves).2).length =
        countFalls (hover 0) (insideList R moves) := by
  induction moves with
  | nil => intro hover; simp [runMoves, countFalls, insideList]
  | cons p rest ih =>
      intro hover
      have hstep := handleMove_leave_step R p.1 p.2 hover
      simp only [runMoves, insideList, List.map_cons, countFalls,
        List.length_append]
      rw [hstep.2, ih _, hstep.1]
      simp only [insideList]
      rcases Bool.eq_false_or_eq_true (isPointInRect p.1 p.2 R) with hin | hin <;>
        rcases Bool.eq_false_or_eq_true (hover 0) with hh | hh <;>
          simp [hin, hh]

/-- Over any move sequence, with enter registered before leave on the same
element, the enter entry fires once per outside-to-inside transition and the
leave entry never fires. -/
lemma runMoves_pairEL (R : Rect) (moves : List (Int × Int)) :
    ∀ hover : Nat → Bool,
      ((runMoves (constBounds R) [enterEntry, leaveEntry] hover
          moves).2).count enterEntry =
        countRises (hover 0) (insideList R moves) ∧
      ((runMoves (constBounds R) [enterEntry, leaveEntry] hover
          moves).2).count leaveEntry = 0 := by
  induction moves with
  | nil => intro hover; simp [runMoves, countRises, insideList]
  | cons p rest ih =>
      intro hover
      have hstep := handleMove_pairEL_step R p.1 p.2 hover
      constructor
      · simp only [runMoves, insideList, List.map_cons, countRises,
          List.count_append]
        rw [hstep.2, (ih _).1, hstep.1]
        simp only [insideList]
        rcases Bool.eq_false_or_eq_true (isPointInRect p.1 p.2 R) with hin | hin <;>
          rcases Bool.eq_false_or_eq_true (hover 0) with hh | hh <;>
            simp [hin, hh, enterEntry, leaveEntry]
      · simp only [runMoves, List.count_append]
        rw [hstep.2, (ih _).2]
        rcases Bool.eq_false_or_eq_true (isPointInRect p.1 p.2 R) with hin | hin <;>
          rcases Bool.eq_false_or_eq_true (hover 0) with hh | hh <;>
            simp [hin, hh, enterEntry, leaveEntry]

/-- Over any move sequence, with leave registered before enter on the same
element, the leave entry fires once per inside-to-outside transition and the
enter entry never fires. -/
lemma runMoves_pairLE (R : Rect) (moves : List (Int × Int)) :
    ∀ hover : Nat → Bool,
      ((runMoves (constBounds R) [leaveEntry, enterEntry] hover
          moves).2).count leaveEntry =
        countFalls (hover 0) (insideList R moves) ∧
      ((runMoves (constBounds R) [leaveEntry, enterEntry] hover
          moves).2).count enterEntry = 0 := by
  induction moves with
  | nil => intro hover; simp [runMoves, countFalls, insideList]
  | cons p rest ih =>
      intro hover
      have hstep := handleMove_pairLE_step R p.1 p.2 hover
      constructor
      · simp only [runMoves, insideList, List.map_cons, countFalls,
          List.count_append]
        rw [hstep.2, (ih _).1, hstep.1]
        simp only [insideList]
        rcases Bool.eq_false_or_eq_true (isPointInRect p.1 p.2 R) with hin | hin <;>
          rcases Bool.eq_false_or_eq_true (hover 0) with hh | hh <;>
            simp [hin, hh, enterEntry, leaveEntry]
      · simp only [runMoves, List.count_append]
        rw [hstep.2, (ih _).2]
        rcases Bool.eq_false_or_eq_true (isPointInRect p.1 p.2 R) with hin | hin <;>
          rcases Bool.eq_false_or_eq_true (hover 0) with hh | hh <;>
            simp [hin, hh, enterEntry, leaveEntry]

/-- C1 counterexample: a `mouseEnter` entry and a `mouseLeave` entry registered
(in that order) for the same element share hover state; over the move sequence
inside-then-outside of `rectA` there is exactly one inside-to-outside
transition, yet the `mouseLeave` handler fires zero times, not once: the
earlier enter entry already updated the shared hover state to false, so the
leave entry observes no change. -/
theorem C1_counterexample :
    countFalls false (insideList rectA [(1, 1), (5, 5)]) = 1 ∧
    ((runMoves (constBounds rectA) [enterEntry, leaveEntry] (fun _ => false)
        [(1, 1), (5, 5)]).2).count leaveEntry = 0 := by
  constructor
  · decide
  · decide

/-- C1 (amended): starting from no hover, an element's lone `mouseEnter` entry
fires exactly once per outside-to-inside transition of the move sequence (and
not on subsequent inside moves), and a lone `mouseLeave` entry fires exactly
once per inside-to-outside transition (never when hover is already false);
but when both an enter and a leave entry are registered for the same element,
sharing hover state, only the earlier-registered entry observes transitions:
with enter registered first the leave handler never fires, and with leave
registered first the enter handler never fires. -/
theorem C1_hover_transitions (R : Rect) (moves : List (Int × Int)) :
    ((runMoves (constBounds R) [enterEntry] (fun _ => false) moves).2).length =
      countRises false (insideList R moves) ∧
    ((runMoves (constBounds R) [leaveEntry] (fun _ => false) moves).2).length =
      countFalls false (insideList R moves) ∧
    ((runMoves (constBounds R) [enterEntry, leaveEntry] (fun _ => false)
        moves).2).count enterEntry = countRises false (insideList R moves) ∧
    ((runMoves (constBounds R) [enterEntry, leaveEntry] (fun _ => false)
        moves).2).count leaveEntry = 0 ∧
    ((runMoves (constBounds R) [leaveEntry, enterEntry] (fun _ => false)
        moves).2).count leaveEntry = countFalls false (insideList R moves) ∧
    ((runMoves (constBounds R) [leaveEntry, enterEntry] (fun _ => false)
        moves).2).count enterEntry = 0 :=
  ⟨runMoves_enter_only R moves (fun _ => false),
   runMoves_leave_only R moves (fun _ => false),
   (runMoves_pairEL R moves (fun _ => false)).1,
   (runMoves_pairEL R moves (fun _ => false)).2,
   (runMoves_pairLE R moves (fun _ => false)).1,
   (runMoves_pairLE R moves (fun _ => false)).2⟩

end InkTools
